import Mathlib

/-!
Verification development for the LA_avdecc controller-entity public facade
(`include/la/avdecc/internals/controllerEntity.hpp`) and the protocol
interface (`src/protocolInterface/protocolInterface.hpp`).

The enum types, their underlying numeric values and the operator overloads
are embedded directly from the C++ source.  Engine behaviour that is only
declared in the headers (the AECP per-target serialization queue and the
recursive engine lock) is modelled from the specification, as marked on the
corresponding definitions.
-/

namespace Avdecc

/-- Status code returned by all AEM (AECP) command methods
(`ControllerEntity::AemCommandStatus`, controllerEntity.hpp:49-71). -/
inductive AemCommandStatus where
  | Success
  | NotImplemented
  | NoSuchDescriptor
  | LockedByOther
  | AcquiredByOther
  | NotAuthenticated
  | AuthenticationDisabled
  | BadArguments
  | NoResources
  | InProgress
  | EntityMisbehaving
  | NotSupported
  | StreamIsRunning
  | NetworkError
  | ProtocolError
  | TimedOut
  | UnknownEntity
  | InternalError
  deriving DecidableEq, Repr, Fintype

/-- Underlying `std::uint16_t` value of each `AemCommandStatus` enumerator. -/
def AemCommandStatus.toVal : AemCommandStatus → Nat
  | .Success => 0
  | .NotImplemented => 1
  | .NoSuchDescriptor => 2
  | .LockedByOther => 3
  | .AcquiredByOther => 4
  | .NotAuthenticated => 5
  | .AuthenticationDisabled => 6
  | .BadArguments => 7
  | .NoResources => 8
  | .InProgress => 9
  | .EntityMisbehaving => 10
  | .NotSupported => 11
  | .StreamIsRunning => 12
  | .NetworkError => 995
  | .ProtocolError => 996
  | .TimedOut => 997
  | .UnknownEntity => 998
  | .InternalError => 999

/-- Status code returned by all AA (AECP) command methods
(`ControllerEntity::AaCommandStatus`, controllerEntity.hpp:74-92). -/
inductive AaCommandStatus where
  | Success
  | NotImplemented
  | AddressTooLow
  | AddressTooHigh
  | AddressInvalid
  | TlvInvalid
  | DataInvalid
  | Unsupported
  | Aborted
  | NetworkError
  | ProtocolError
  | TimedOut
  | UnknownEntity
  | InternalError
  deriving DecidableEq, Repr, Fintype

/-- Underlying `std::uint16_t` value of each `AaCommandStatus` enumerator. -/
def AaCommandStatus.toVal : AaCommandStatus → Nat
  | .Success => 0
  | .NotImplemented => 1
  | .AddressTooLow => 2
  | .AddressTooHigh => 3
  | .AddressInvalid => 4
  | .TlvInvalid => 5
  | .DataInvalid => 6
  | .Unsupported => 7
  | .Aborted => 994
  | .NetworkError => 995
  | .ProtocolError => 996
  | .TimedOut => 997
  | .UnknownEntity => 998
  | .InternalError => 999

/-- Status code returned by all MVU (AECP) command methods
(`ControllerEntity::MvuCommandStatus`, controllerEntity.hpp:95-107). -/
inductive MvuCommandStatus where
  | Success
  | NotImplemented
  | BadArguments
  | NetworkError
  | ProtocolError
  | TimedOut
  | UnknownEntity
  | InternalError
  deriving DecidableEq, Repr, Fintype

/-- Underlying `std::uint16_t` value of each `MvuCommandStatus` enumerator. -/
def MvuCommandStatus.toVal : MvuCommandStatus → Nat
  | .Success => 0
  | .NotImplemented => 1
  | .BadArguments => 2
  | .NetworkError => 995
  | .ProtocolError => 996
  | .TimedOut => 997
  | .UnknownEntity => 998
  | .InternalError => 999

/-- Status code returned by all ACMP control methods
(`ControllerEntity::ControlStatus`, controllerEntity.hpp:110-139). -/
inductive ControlStatus where
  | Success
  | ListenerUnknownID
  | TalkerUnknownID
  | TalkerDestMacFail
  | TalkerNoStreamIndex
  | TalkerNoBandwidth
  | TalkerExclusive
  | ListenerTalkerTimeout
  | ListenerExclusive
  | StateUnavailable
  | NotConnected
  | NoSuchConnection
  | CouldNotSendMessage
  | TalkerMisbehaving
  | ListenerMisbehaving
  | ControllerNotAuthorized
  | IncompatibleRequest
  | NotSupported
  | NetworkError
  | ProtocolError
  | TimedOut
  | UnknownEntity
  | InternalError
  deriving DecidableEq, Repr, Fintype

/-- Underlying `std::uint16_t` value of each `ControlStatus` enumerator. -/
def ControlStatus.toVal : ControlStatus → Nat
  | .Success => 0
  | .ListenerUnknownID => 1
  | .TalkerUnknownID => 2
  | .TalkerDestMacFail => 3
  | .TalkerNoStreamIndex => 4
  | .TalkerNoBandwidth => 5
  | .TalkerExclusive => 6
  | .ListenerTalkerTimeout => 7
  | .ListenerExclusive => 8
  | .StateUnavailable => 9
  | .NotConnected => 10
  | .NoSuchConnection => 11
  | .CouldNotSendMessage => 12
  | .TalkerMisbehaving => 13
  | .ListenerMisbehaving => 14
  | .ControllerNotAuthorized => 16
  | .IncompatibleRequest => 17
  | .NotSupported => 31
  | .NetworkError => 995
  | .ProtocolError => 996
  | .TimedOut => 997
  | .UnknownEntity => 998
  | .InternalError => 999

/-- `ProtocolInterface::Error` (protocolInterface.hpp:52-66). -/
inductive PIError where
  | NoError
  | TransportError
  | Timeout
  | UnknownRemoteEntity
  | UnknownLocalEntity
  | InvalidEntityType
  | DuplicateLocalEntityID
  | InterfaceNotFound
  | InterfaceInvalid
  | InterfaceNotSupported
  | MessageNotSupported
  | InternalError
  deriving DecidableEq, Repr, Fintype

/-- Underlying value of each `ProtocolInterface::Error` enumerator. -/
def PIError.toVal : PIError → Nat
  | .NoError => 0
  | .TransportError => 1
  | .Timeout => 2
  | .UnknownRemoteEntity => 3
  | .UnknownLocalEntity => 4
  | .InvalidEntityType => 5
  | .DuplicateLocalEntityID => 6
  | .InterfaceNotFound => 7
  | .InterfaceInvalid => 8
  | .InterfaceNotSupported => 9
  | .MessageNotSupported => 10
  | .InternalError => 99

/- Operator overloads (controllerEntity.hpp:471-535). -/

/-- `operator!(AemCommandStatus)`: `status != AemCommandStatus::Success`. -/
def AemCommandStatus.bang (status : AemCommandStatus) : Bool :=
  status ≠ AemCommandStatus.Success

/-- `operator|(AemCommandStatus, AemCommandStatus)`:
`if (!!lhs) return rhs; return lhs;` where the inner `!` is the overloaded
`operator!` and the outer `!` is built-in boolean negation. -/
def AemCommandStatus.orCombine (lhs rhs : AemCommandStatus) : AemCommandStatus :=
  if !lhs.bang then rhs else lhs

/-- `operator!(AaCommandStatus)`: `status != AaCommandStatus::Success`. -/
def AaCommandStatus.bang (status : AaCommandStatus) : Bool :=
  status ≠ AaCommandStatus.Success

/-- `operator|(AaCommandStatus, AaCommandStatus)`:
`if (!!lhs) return rhs; return lhs;`. -/
def AaCommandStatus.orCombine (lhs rhs : AaCommandStatus) : AaCommandStatus :=
  if !lhs.bang then rhs else lhs

/-- `operator!(MvuCommandStatus)`: `status != MvuCommandStatus::Success`. -/
def MvuCommandStatus.bang (status : MvuCommandStatus) : Bool :=
  status ≠ MvuCommandStatus.Success

/-- `operator|(MvuCommandStatus, MvuCommandStatus)`:
`if (!!lhs) return rhs; return lhs;`. -/
def MvuCommandStatus.orCombine (lhs rhs : MvuCommandStatus) : MvuCommandStatus :=
  if !lhs.bang then rhs else lhs

/-- `operator!(ControlStatus)`: `status != ControlStatus::Success`. -/
def ControlStatus.bang (status : ControlStatus) : Bool :=
  status ≠ ControlStatus.Success

/-- The value-returning `operator|=(ControlStatus const, ControlStatus const)`
(controllerEntity.hpp:530-535): `if (!!lhs) return rhs; return lhs;`. -/
def ControlStatus.orCombine (lhs rhs : ControlStatus) : ControlStatus :=
  if !lhs.bang then rhs else lhs

/-- `operator!(ProtocolInterface::Error)` (protocolInterface.hpp:181-184):
`error == ProtocolInterface::Error::NoError`. -/
def PIError.bang (error : PIError) : Bool :=
  error = PIError.NoError

/-- `operator|=(ProtocolInterface::Error&, ProtocolInterface::Error)`
(protocolInterface.hpp:186-190): stores into `lhs` the bitwise OR of the two
underlying integer values; the result is returned as the raw underlying value
because the OR of two enumerator values need not be an enumerator. -/
def PIError.orAssign (lhs rhs : PIError) : Nat :=
  Nat.lor lhs.toVal rhs.toVal

/-- First non-`Success` element of a list of AEM statuses (`Success` if none). -/
def AemCommandStatus.firstFailure (l : List AemCommandStatus) : AemCommandStatus :=
  (l.find? (fun s => s.bang)).getD AemCommandStatus.Success

/-- First non-`Success` element of a list of AA statuses (`Success` if none). -/
def AaCommandStatus.firstFailure (l : List AaCommandStatus) : AaCommandStatus :=
  (l.find? (fun s => s.bang)).getD AaCommandStatus.Success

/-- First non-`Success` element of a list of MVU statuses (`Success` if none). -/
def MvuCommandStatus.firstFailure (l : List MvuCommandStatus) : MvuCommandStatus :=
  (l.find? (fun s => s.bang)).getD MvuCommandStatus.Success

/-- First non-`Success` element of a list of ACMP statuses (`Success` if none). -/
def ControlStatus.firstFailure (l : List ControlStatus) : ControlStatus :=
  (l.find? (fun s => s.bang)).getD ControlStatus.Success

/-- Which status enum the completion handler of a facade method carries. -/
inductive StatusKind where
  | aem
  | aa
  | mvu
  | control
  deriving DecidableEq, Repr

/-- One facade command method declaration of `ControllerEntity`
(controllerEntity.hpp:348-445): its name, whether it is declared `noexcept`,
and the status enum of its completion handler's `status` parameter. -/
structure FacadeMethod where
  name : String
  isNoexcept : Bool
  statusKind : StatusKind
  deriving DecidableEq, Repr

set_option maxHeartbeats 1600000 in
/-- The AEM, AA, MVU and ACMP command methods of `ControllerEntity`
transcribed from controllerEntity.hpp:348-445: every one is declared
`const noexcept = 0` and takes a completion handler whose `status`
parameter has the listed status enum type. -/
def facadeCommandMethods : List FacadeMethod :=
  [ ⟨"acquireEntity", true, .aem⟩
  , ⟨"releaseEntity", true, .aem⟩
  , ⟨"lockEntity", true, .aem⟩
  , ⟨"unlockEntity", true, .aem⟩
  , ⟨"queryEntityAvailable", true, .aem⟩
  , ⟨"queryControllerAvailable", true, .aem⟩
  , ⟨"registerUnsolicitedNotifications", true, .aem⟩
  , ⟨"unregisterUnsolicitedNotifications", true, .aem⟩
  , ⟨"readEntityDescriptor", true, .aem⟩
  , ⟨"readConfigurationDescriptor", true, .aem⟩
  , ⟨"readAudioUnitDescriptor", true, .aem⟩
  , ⟨"readStreamInputDescriptor", true, .aem⟩
  , ⟨"readStreamOutputDescriptor", true, .aem⟩
  , ⟨"readJackInputDescriptor", true, .aem⟩
  , ⟨"readJackOutputDescriptor", true, .aem⟩
  , ⟨"readAvbInterfaceDescriptor", true, .aem⟩
  , ⟨"readClockSourceDescriptor", true, .aem⟩
  , ⟨"readMemoryObjectDescriptor", true, .aem⟩
  , ⟨"readLocaleDescriptor", true, .aem⟩
  , ⟨"readStringsDescriptor", true, .aem⟩
  , ⟨"readStreamPortInputDescriptor", true, .aem⟩
  , ⟨"readStreamPortOutputDescriptor", true, .aem⟩
  , ⟨"readExternalPortInputDescriptor", true, .aem⟩
  , ⟨"readExternalPortOutputDescriptor", true, .aem⟩
  , ⟨"readInternalPortInputDescriptor", true, .aem⟩
  , ⟨"readInternalPortOutputDescriptor", true, .aem⟩
  , ⟨"readAudioClusterDescriptor", true, .aem⟩
  , ⟨"readAudioMapDescriptor", true, .aem⟩
  , ⟨"readClockDomainDescriptor", true, .aem⟩
  , ⟨"setConfiguration", true, .aem⟩
  , ⟨"setStreamInputFormat", true, .aem⟩
  , ⟨"getStreamInputFormat", true, .aem⟩
  , ⟨"setStreamOutputFormat", true, .aem⟩
  , ⟨"getStreamOutputFormat", true, .aem⟩
  , ⟨"getStreamPortInputAudioMap", true, .aem⟩
  , ⟨"getStreamPortOutputAudioMap", true, .aem⟩
  , ⟨"addStreamPortInputAudioMappings", true, .aem⟩
  , ⟨"addStreamPortOutputAudioMappings", true, .aem⟩
  , ⟨"removeStreamPortInputAudioMappings", true, .aem⟩
  , ⟨"removeStreamPortOutputAudioMappings", true, .aem⟩
  , ⟨"getStreamInputInfo", true, .aem⟩
  , ⟨"getStreamOutputInfo", true, .aem⟩
  , ⟨"setEntityName", true, .aem⟩
  , ⟨"getEntityName", true, .aem⟩
  , ⟨"setEntityGroupName", true, .aem⟩
  , ⟨"getEntityGroupName", true, .aem⟩
  , ⟨"setConfigurationName", true, .aem⟩
  , ⟨"getConfigurationName", true, .aem⟩
  , ⟨"setAudioUnitName", true, .aem⟩
  , ⟨"getAudioUnitName", true, .aem⟩
  , ⟨"setStreamInputName", true, .aem⟩
  , ⟨"getStreamInputName", true, .aem⟩
  , ⟨"setStreamOutputName", true, .aem⟩
  , ⟨"getStreamOutputName", true, .aem⟩
  , ⟨"setAvbInterfaceName", true, .aem⟩
  , ⟨"getAvbInterfaceName", true, .aem⟩
  , ⟨"setClockSourceName", true, .aem⟩
  , ⟨"getClockSourceName", true, .aem⟩
  , ⟨"setMemoryObjectName", true, .aem⟩
  , ⟨"getMemoryObjectName", true, .aem⟩
  , ⟨"setAudioClusterName", true, .aem⟩
  , ⟨"getAudioClusterName", true, .aem⟩
  , ⟨"setClockDomainName", true, .aem⟩
  , ⟨"getClockDomainName", true, .aem⟩
  , ⟨"setAudioUnitSamplingRate", true, .aem⟩
  , ⟨"getAudioUnitSamplingRate", true, .aem⟩
  , ⟨"setVideoClusterSamplingRate", true, .aem⟩
  , ⟨"getVideoClusterSamplingRate", true, .aem⟩
  , ⟨"setSensorClusterSamplingRate", true, .aem⟩
  , ⟨"getSensorClusterSamplingRate", true, .aem⟩
  , ⟨"setClockSource", true, .aem⟩
  , ⟨"getClockSource", true, .aem⟩
  , ⟨"startStreamInput", true, .aem⟩
  , ⟨"startStreamOutput", true, .aem⟩
  , ⟨"stopStreamInput", true, .aem⟩
  , ⟨"stopStreamOutput", true, .aem⟩
  , ⟨"getAvbInfo", true, .aem⟩
  , ⟨"getAvbInterfaceCounters", true, .aem⟩
  , ⟨"getClockDomainCounters", true, .aem⟩
  , ⟨"getStreamInputCounters", true, .aem⟩
  , ⟨"startOperation", true, .aem⟩
  , ⟨"abortOperation", true, .aem⟩
  , ⟨"setMemoryObjectLength", true, .aem⟩
  , ⟨"getMemoryObjectLength", true, .aem⟩
  , ⟨"addressAccess", true, .aa⟩
  , ⟨"getMilanInfo", true, .mvu⟩
  , ⟨"connectStream", true, .control⟩
  , ⟨"disconnectStream", true, .control⟩
  , ⟨"disconnectTalkerStream", true, .control⟩
  , ⟨"getTalkerStreamState", true, .control⟩
  , ⟨"getListenerStreamState", true, .control⟩
  , ⟨"getTalkerStreamConnection", true, .control⟩
  ]

/-- Modelled from the spec: an AEM command pending in the AECP transaction
engine (the engine implementation is not among the provided sources, only its
facade declarations).  Spec §3 `Transaction`: the fields relevant to the
per-target serialization discipline are the sequence id and the command type. -/
structure AemCommand where
  seqId : Nat
  commandType : Nat
  deriving DecidableEq, Repr

/-- Modelled from the spec: the per-target state of the AECP transaction
engine, spec §4.D: `inflight` transactions and a FIFO `serialization_queue`
of commands waiting behind the in-flight one. -/
structure PerTargetState where
  inflight : List AemCommand
  queue : List AemCommand
  deriving DecidableEq, Repr

/-- Modelled from the spec: the per-target state before any command was
issued: nothing in flight, empty FIFO. -/
def PerTargetState.init : PerTargetState :=
  { inflight := [], queue := [] }

/-- Modelled from the spec: issuing an AEM command to the target, spec §4.D:
if nothing is in flight the command is transmitted and registered in-flight,
otherwise it is appended (FIFO) to the serialization queue. -/
def PerTargetState.issue (s : PerTargetState) (c : AemCommand) : PerTargetState :=
  if s.inflight.isEmpty then
    { s with inflight := s.inflight ++ [c] }
  else
    { s with queue := s.queue ++ [c] }

/-- Modelled from the spec: completion of the in-flight command (matched
response, exhausted retries, or target offline), spec §3 and §4.D: the
in-flight transaction is destroyed and, when the serialization queue is not
empty, its head is dequeued and transmitted. -/
def PerTargetState.complete (s : PerTargetState) : PerTargetState :=
  let remaining := s.inflight.drop 1
  match s.queue with
  | [] => { inflight := remaining, queue := [] }
  | next :: rest => { inflight := remaining ++ [next], queue := rest }

/-- States of the per-target AECP engine reachable from the initial state by
issuing and completing commands. -/
inductive PerTargetState.Reachable : PerTargetState → Prop where
  | init : PerTargetState.Reachable PerTargetState.init
  | issue {s : PerTargetState} (c : AemCommand) :
      PerTargetState.Reachable s → PerTargetState.Reachable (s.issue c)
  | complete {s : PerTargetState} :
      PerTargetState.Reachable s → PerTargetState.Reachable s.complete

/-- Modelled from the spec: the engine's public reentrant lock
(protocolInterface.hpp:49 declares the subject over `std::recursive_mutex`;
lock/unlock at lines 144-147 are declared only).  The lock records the owning
thread, if any, and the recursion depth. -/
structure RecursiveLock where
  owner : Option Nat
  depth : Nat
  deriving DecidableEq, Repr

/-- Modelled from the spec: acquiring the recursive lock from thread `t`.
`some` is the state after a successful (non-blocking or re-entrant)
acquisition; `none` means the calling thread would block because another
thread holds the lock. -/
def RecursiveLock.acquire (l : RecursiveLock) (t : Nat) : Option RecursiveLock :=
  match l.owner with
  | none => some { owner := some t, depth := 1 }
  | some o => if o = t then some { owner := some t, depth := l.depth + 1 } else none

/-- Modelled from the spec: releasing the recursive lock from thread `t`;
the lock is freed only when the outermost acquisition is released. -/
def RecursiveLock.release (l : RecursiveLock) (t : Nat) : Option RecursiveLock :=
  match l.owner with
  | none => none
  | some o =>
    if o = t then
      if l.depth ≤ 1 then some { owner := none, depth := 0 }
      else some { owner := some t, depth := l.depth - 1 }
    else none

/-- Library-added status codes of `AemCommandStatus` (the source groups them
under the comment `// Library Error Codes`). -/
def AemCommandStatus.isLibraryCode : AemCommandStatus → Bool
  | .NetworkError | .ProtocolError | .TimedOut | .UnknownEntity | .InternalError => true
  | _ => false

/-- Library-added status codes of `AaCommandStatus` (including `Aborted`). -/
def AaCommandStatus.isLibraryCode : AaCommandStatus → Bool
  | .Aborted | .NetworkError | .ProtocolError | .TimedOut | .UnknownEntity
  | .InternalError => true
  | _ => false

/-- Library-added status codes of `MvuCommandStatus`. -/
def MvuCommandStatus.isLibraryCode : MvuCommandStatus → Bool
  | .NetworkError | .ProtocolError | .TimedOut | .UnknownEntity | .InternalError => true
  | _ => false

/-- Library-added status codes of `ControlStatus`. -/
def ControlStatus.isLibraryCode : ControlStatus → Bool
  | .NetworkError | .ProtocolError | .TimedOut | .UnknownEntity | .InternalError => true
  | _ => false

/-- All enumerators of `ProtocolInterface::Error`, in declaration order. -/
def allPIErrors : List PIError :=
  [ .NoError, .TransportError, .Timeout, .UnknownRemoteEntity, .UnknownLocalEntity
  , .InvalidEntityType, .DuplicateLocalEntityID, .InterfaceNotFound
  , .InterfaceInvalid, .InterfaceNotSupported, .MessageNotSupported, .InternalError ]

/-- All enumerators of `ControllerEntity::ControlStatus`, in declaration order. -/
def allControlStatuses : List ControlStatus :=
  [ .Success, .ListenerUnknownID, .TalkerUnknownID, .TalkerDestMacFail
  , .TalkerNoStreamIndex, .TalkerNoBandwidth, .TalkerExclusive
  , .ListenerTalkerTimeout, .ListenerExclusive, .StateUnavailable, .NotConnected
  , .NoSuchConnection, .CouldNotSendMessage, .TalkerMisbehaving
  , .ListenerMisbehaving, .ControllerNotAuthorized, .IncompatibleRequest
  , .NotSupported, .NetworkError, .ProtocolError, .TimedOut, .UnknownEntity
  , .InternalError ]

/-- The normative numeric values of `ControlStatus`, gaps included. -/
def controlStatusNormativeVals : List Nat :=
  [0, 1, 2, 3, 4, 5, 6, 7, 8, 9, 10, 11, 12, 13, 14, 16, 17, 31, 995, 996, 997, 998, 999]

/- Helper lemmas shared by the claim theorems. -/

lemma aemOrCombine_eq : ∀ a b : AemCommandStatus,
    a.orCombine b = if a = AemCommandStatus.Success then b else a := by
  decide

lemma aaOrCombine_eq : ∀ a b : AaCommandStatus,
    a.orCombine b = if a = AaCommandStatus.Success then b else a := by
  decide

lemma mvuOrCombine_eq : ∀ a b : MvuCommandStatus,
    a.orCombine b = if a = MvuCommandStatus.Success then b else a := by
  decide

lemma controlOrCombine_eq : ∀ a b : ControlStatus,
    a.orCombine b = if a = ControlStatus.Success then b else a := by
  decide

lemma foldl_statusOr_absorb {α : Type} [DecidableEq α] (succ : α) (op : α → α → α)
    (hop : ∀ a b : α, op a b = if a = succ then b else a) :
    ∀ (l : List α) (a : α), a ≠ succ → l.foldl op a = a := by
  intro l
  induction l with
  | nil => intro a _; rfl
  | cons x xs ih =>
    intro a h
    rw [List.foldl_cons, hop, if_neg h]
    exact ih a h

lemma foldl_statusOr_firstFailure {α : Type} [DecidableEq α] (succ : α)
    (op : α → α → α) (bang : α → Bool)
    (hbang : ∀ a : α, bang a = decide (¬a = succ))
    (hop : ∀ a b : α, op a b = if a = succ then b else a) :
    ∀ l : List α, l.foldl op succ = (l.find? (fun s => bang s)).getD succ := by
  intro l
  induction l with
  | nil => rfl
  | cons x xs ih =>
    rw [List.foldl_cons, hop, if_pos rfl]
    by_cases h : x = succ
    · subst h
      rw [ih, List.find?_cons_of_neg]
      simp [hbang]
    · rw [foldl_statusOr_absorb succ op hop xs x h, List.find?_cons_of_pos]
      · rfl
      · simp [hbang, h]

/-- C1: for each command status enum (`AemCommandStatus`, `AaCommandStatus`
and `MvuCommandStatus` via `operator|`, and `ControlStatus` via the
value-returning `operator|=` overload), folding two statuses yields the first
failure seen: the fold equals `a` when `a` is not `Success` and equals `b`
when `a` is `Success`; `Success` is a two-sided identity of the fold and the
fold of a sequence of statuses is its first non-`Success` element. -/
theorem status_fold_is_first_failure :
    (∀ a b : AemCommandStatus, a.orCombine b = if a = AemCommandStatus.Success then b else a)
    ∧ (∀ a b : AaCommandStatus, a.orCombine b = if a = AaCommandStatus.Success then b else a)
    ∧ (∀ a b : MvuCommandStatus, a.orCombine b = if a = MvuCommandStatus.Success then b else a)
    ∧ (∀ a b : ControlStatus, a.orCombine b = if a = ControlStatus.Success then b else a)
    ∧ (∀ a : AemCommandStatus,
        AemCommandStatus.orCombine AemCommandStatus.Success a = a
        ∧ a.orCombine AemCommandStatus.Success = a)
    ∧ (∀ a : AaCommandStatus,
        AaCommandStatus.orCombine AaCommandStatus.Success a = a
        ∧ a.orCombine AaCommandStatus.Success = a)
    ∧ (∀ a : MvuCommandStatus,
        MvuCommandStatus.orCombine MvuCommandStatus.Success a = a
        ∧ a.orCombine MvuCommandStatus.Success = a)
    ∧ (∀ a : ControlStatus,
        ControlStatus.orCombine ControlStatus.Success a = a
        ∧ a.orCombine ControlStatus.Success = a)
    ∧ (∀ l : List AemCommandStatus,
        l.foldl AemCommandStatus.orCombine AemCommandStatus.Success
          = AemCommandStatus.firstFailure l)
    ∧ (∀ l : List AaCommandStatus,
        l.foldl AaCommandStatus.orCombine AaCommandStatus.Success
          = AaCommandStatus.firstFailure l)
    ∧ (∀ l : List MvuCommandStatus,
        l.foldl MvuCommandStatus.orCombine MvuCommandStatus.Success
          = MvuCommandStatus.firstFailure l)
    ∧ (∀ l : List ControlStatus,
        l.foldl ControlStatus.orCombine ControlStatus.Success
          = ControlStatus.firstFailure l) :=
  ⟨aemOrCombine_eq, aaOrCombine_eq, mvuOrCombine_eq, controlOrCombine_eq,
   by decide, by decide, by decide, by decide,
   foldl_statusOr_firstFailure AemCommandStatus.Success AemCommandStatus.orCombine
     AemCommandStatus.bang (fun _ => rfl) aemOrCombine_eq,
   foldl_statusOr_firstFailure AaCommandStatus.Success AaCommandStatus.orCombine
     AaCommandStatus.bang (fun _ => rfl) aaOrCombine_eq,
   foldl_statusOr_firstFailure MvuCommandStatus.Success MvuCommandStatus.orCombine
     MvuCommandStatus.bang (fun _ => rfl) mvuOrCombine_eq,
   foldl_statusOr_firstFailure ControlStatus.Success ControlStatus.orCombine
     ControlStatus.bang (fun _ => rfl) controlOrCombine_eq⟩

/-- C2 counterexample: folding two `ProtocolInterface::Error` values with
`operator|=` does not keep the first failure: `TransportError |= Timeout`
stores the bitwise OR `3`, not the value `1` of `TransportError`, even though
`TransportError` is not `NoError`. -/
theorem piError_orAssign_counterexample :
    PIError.TransportError ≠ PIError.NoError
    ∧ PIError.orAssign PIError.TransportError PIError.Timeout = 3
    ∧ PIError.toVal PIError.TransportError = 1
    ∧ PIError.orAssign PIError.TransportError PIError.Timeout
        ≠ PIError.toVal PIError.TransportError := by
  decide

/-- C2 (amended): `operator|=` on `ProtocolInterface::Error` stores the
bitwise OR of the two underlying numeric values: the result is `b` when `a`
is `NoError` and `a` when `b` is `NoError`, and it is zero (`NoError`)
exactly when both operands are `NoError`; for two distinct non-`NoError`
operands it is the OR of both codes, not the first failure. -/
theorem piError_orAssign_bitwise :
    ∀ a b : PIError,
      PIError.orAssign a b = Nat.lor a.toVal b.toVal
      ∧ (a = PIError.NoError → PIError.orAssign a b = b.toVal)
      ∧ (b = PIError.NoError → PIError.orAssign a b = a.toVal)
      ∧ (PIError.orAssign a b = 0 ↔ a = PIError.NoError ∧ b = PIError.NoError) := by
  decide

/-- C2 witness: the amended statement evaluated at concrete operands. -/
theorem piError_orAssign_bitwise_witness :
    PIError.orAssign PIError.NoError PIError.Timeout = PIError.toVal PIError.Timeout
    ∧ PIError.orAssign PIError.InternalError PIError.NoError
        = PIError.toVal PIError.InternalError :=
  ⟨(piError_orAssign_bitwise PIError.NoError PIError.Timeout).2.1 rfl,
   (piError_orAssign_bitwise PIError.InternalError PIError.NoError).2.2.1 rfl⟩

/-- C3: in each of the four command status enums, a status is a library code
(`NetworkError`, `ProtocolError`, `TimedOut`, `UnknownEntity`,
`InternalError`, plus `Aborted` for AA) exactly when its numeric value lies
in the reserved range 994-999, so library codes and protocol-assigned codes
never share a numeric value. -/
theorem library_codes_in_reserved_range :
    (∀ s : AemCommandStatus,
      s.isLibraryCode = true ↔ (994 ≤ s.toVal ∧ s.toVal ≤ 999))
    ∧ (∀ s : AaCommandStatus,
      s.isLibraryCode = true ↔ (994 ≤ s.toVal ∧ s.toVal ≤ 999))
    ∧ (∀ s : MvuCommandStatus,
      s.isLibraryCode = true ↔ (994 ≤ s.toVal ∧ s.toVal ≤ 999))
    ∧ (∀ s : ControlStatus,
      s.isLibraryCode = true ↔ (994 ≤ s.toVal ∧ s.toVal ≤ 999))
    ∧ (∀ s t : AemCommandStatus,
      s.isLibraryCode = true → t.isLibraryCode = false → s.toVal ≠ t.toVal)
    ∧ (∀ s t : AaCommandStatus,
      s.isLibraryCode = true → t.isLibraryCode = false → s.toVal ≠ t.toVal)
    ∧ (∀ s t : MvuCommandStatus,
      s.isLibraryCode = true → t.isLibraryCode = false → s.toVal ≠ t.toVal)
    ∧ (∀ s t : ControlStatus,
      s.isLibraryCode = true → t.isLibraryCode = false → s.toVal ≠ t.toVal) := by
  decide

/-- C3 witness: the reserved-range characterization and the no-collision
property evaluated at concrete statuses. -/
theorem library_codes_in_reserved_range_witness :
    (994 ≤ AaCommandStatus.Aborted.toVal ∧ AaCommandStatus.Aborted.toVal ≤ 999)
    ∧ AemCommandStatus.NetworkError.toVal ≠ AemCommandStatus.NotSupported.toVal :=
  ⟨(library_codes_in_reserved_range.2.1 AaCommandStatus.Aborted).mp rfl,
   library_codes_in_reserved_range.2.2.2.2.1 AemCommandStatus.NetworkError
     AemCommandStatus.NotSupported rfl rfl⟩

/-- C4: the facade `ProtocolInterface::Error` enum carries exactly the
normative numeric values 0-10 and 99, in declaration order, with every
enumerator listed and no duplicate value. -/
theorem piError_values_normative :
    allPIErrors.map PIError.toVal = [0, 1, 2, 3, 4, 5, 6, 7, 8, 9, 10, 99]
    ∧ (∀ e : PIError, e ∈ allPIErrors)
    ∧ allPIErrors.Nodup := by
  decide

/-- C5: the ACMP `ControlStatus` enum carries exactly the normative numeric
values with the reserved gaps: protocol codes 0-14, 16, 17 and 31, and
library codes 995-999; every enumerator is listed, no value repeats, and no
enumerator has value 15, a value in 18-30, or any other unlisted value. -/
theorem controlStatus_values_normative :
    allControlStatuses.map ControlStatus.toVal = controlStatusNormativeVals
    ∧ (∀ s : ControlStatus, s ∈ allControlStatuses)
    ∧ allControlStatuses.Nodup
    ∧ (∀ s : ControlStatus, s.toVal ∈ controlStatusNormativeVals)
    ∧ (15 ∉ controlStatusNormativeVals
        ∧ ∀ v ∈ controlStatusNormativeVals, v < 18 ∨ 30 < v) := by
  decide

/-- C6: in the AECP transaction engine modelled from the spec, every state
reachable from the initial per-target state has at most one in-flight AEM
command, and issuing a further command while one is in flight leaves the
in-flight set unchanged and appends the command FIFO to the serialization
queue instead of transmitting it. -/
theorem aem_engine_at_most_one_inflight :
    (∀ s : PerTargetState, s.Reachable → s.inflight.length ≤ 1)
    ∧ (∀ (s : PerTargetState) (c : AemCommand), s.inflight ≠ [] →
        (s.issue c).inflight = s.inflight ∧ (s.issue c).queue = s.queue ++ [c]) := by
  constructor
  · intro s hs
    induction hs with
    | init => decide
    | @issue s1 c _ ih =>
      unfold PerTargetState.issue
      by_cases h : s1.inflight.isEmpty
      · rw [if_pos h]
        simp [List.isEmpty_iff.mp h]
      · rw [if_neg h]
        exact ih
    | @complete s1 _ ih =>
      unfold PerTargetState.complete
      rcases hq : s1.queue with _ | ⟨next, rest⟩
      · simp only
        calc (s1.inflight.drop 1).length = s1.inflight.length - 1 := by
              rw [List.length_drop]
          _ ≤ 1 := by omega
      · simp only [List.length_append, List.length_drop]
        have : s1.inflight.length - 1 = 0 := by omega
        simp [this]
  · intro s c h
    unfold PerTargetState.issue
    rw [if_neg (by simpa [List.isEmpty_iff] using h)]
    exact ⟨rfl, rfl⟩

/-- C6 witness: two commands issued back-to-back from the initial state keep
the in-flight count at one, and the second is FIFO-queued. -/
theorem aem_engine_at_most_one_inflight_witness :
    ((PerTargetState.init.issue ⟨0, 1⟩).issue ⟨1, 2⟩).inflight.length ≤ 1
    ∧ ((⟨[⟨0, 1⟩], []⟩ : PerTargetState).issue ⟨1, 2⟩).queue = [⟨1, 2⟩] :=
  ⟨aem_engine_at_most_one_inflight.1 _
     (PerTargetState.Reachable.issue ⟨1, 2⟩
       (PerTargetState.Reachable.issue ⟨0, 1⟩ PerTargetState.Reachable.init)),
   (aem_engine_at_most_one_inflight.2 ⟨[⟨0, 1⟩], []⟩ ⟨1, 2⟩ (by decide)).2⟩

/-- C7: every public facade command operation of `ControllerEntity` (all AEM,
AA, MVU and ACMP methods) is declared `noexcept`, and each delivers its
outcome through a completion handler typed with the corresponding status
enum: 84 AEM methods, `addressAccess` for AA, `getMilanInfo` for MVU, and
the six ACMP stream methods. -/
theorem facade_methods_all_noexcept :
    facadeCommandMethods.all (fun m => m.isNoexcept) = true
    ∧ facadeCommandMethods.length = 92
    ∧ (facadeCommandMethods.filter (fun m => m.statusKind = StatusKind.aem)).length = 84
    ∧ (facadeCommandMethods.filter (fun m => m.statusKind = StatusKind.aa)).map
        (fun m => m.name) = ["addressAccess"]
    ∧ (facadeCommandMethods.filter (fun m => m.statusKind = StatusKind.mvu)).map
        (fun m => m.name) = ["getMilanInfo"]
    ∧ (facadeCommandMethods.filter (fun m => m.statusKind = StatusKind.control)).map
        (fun m => m.name)
      = ["connectStream", "disconnectStream", "disconnectTalkerStream",
         "getTalkerStreamState", "getListenerStreamState",
         "getTalkerStreamConnection"] := by
  refine ⟨by decide, by decide, by decide, by decide, by decide, by decide⟩

/-- C8: the engine lock modelled from the spec is reentrant: a thread that
already owns it acquires it again without blocking (the depth increments),
while any other thread's acquisition attempt blocks, so exclusive access is
preserved across multiple engine calls made while the lock is held; an inner
release keeps ownership. -/
theorem engine_lock_reentrant :
    (∀ (l : RecursiveLock) (t : Nat), l.owner = some t →
      l.acquire t = some { owner := some t, depth := l.depth + 1 })
    ∧ (∀ (l : RecursiveLock) (t u : Nat), l.owner = some t → t ≠ u →
      l.acquire u = none)
    ∧ (∀ t : Nat,
      RecursiveLock.acquire { owner := none, depth := 0 } t
        = some { owner := some t, depth := 1 })
    ∧ (∀ (l : RecursiveLock) (t : Nat), l.owner = some t → 2 ≤ l.depth →
      l.release t = some { owner := some t, depth := l.depth - 1 }) := by
  refine ⟨?_, ?_, ?_, ?_⟩
  · intro l t h
    simp [RecursiveLock.acquire, h]
  · intro l t u h hne
    simp [RecursiveLock.acquire, h]
    intro hut
    exact hne hut
  · intro t
    rfl
  · intro l t h hd
    simp [RecursiveLock.release, h]
    omega

/-- C8 witness: a lock held once by thread 7 is re-acquired by thread 7 and
refused to thread 8. -/
theorem engine_lock_reentrant_witness :
    RecursiveLock.acquire ⟨some 7, 1⟩ 7 = some ⟨some 7, 2⟩
    ∧ RecursiveLock.acquire ⟨some 7, 1⟩ 8 = none :=
  ⟨engine_lock_reentrant.1 ⟨some 7, 1⟩ 7 rfl,
   engine_lock_reentrant.2.1 ⟨some 7, 1⟩ 7 8 rfl (by decide)⟩

/-- C9: on each of the four command status enums, `operator!` returns `true`
exactly when the status is not `Success`: negation tests for failure. -/
theorem status_bang_tests_failure :
    (∀ s : AemCommandStatus, s.bang = true ↔ s ≠ AemCommandStatus.Success)
    ∧ (∀ s : AaCommandStatus, s.bang = true ↔ s ≠ AaCommandStatus.Success)
    ∧ (∀ s : MvuCommandStatus, s.bang = true ↔ s ≠ MvuCommandStatus.Success)
    ∧ (∀ s : ControlStatus, s.bang = true ↔ s ≠ ControlStatus.Success) := by
  decide

/-- C10: on the facade `ProtocolInterface::Error` enum, `operator!` returns
`true` exactly when the error is `NoError` — it tests for success, the
opposite polarity of `operator!` on the four command status enums, which
returns `true` exactly on non-`Success` values. -/
theorem piError_bang_tests_success :
    (∀ e : PIError, e.bang = true ↔ e = PIError.NoError)
    ∧ (∀ s : AemCommandStatus, s.bang = true ↔ ¬s = AemCommandStatus.Success)
    ∧ (∀ s : AaCommandStatus, s.bang = true ↔ ¬s = AaCommandStatus.Success)
    ∧ (∀ s : MvuCommandStatus, s.bang = true ↔ ¬s = MvuCommandStatus.Success)
    ∧ (∀ s : ControlStatus, s.bang = true ↔ ¬s = ControlStatus.Success) := by
  decide

end Avdecc
